import Mathlib

/-!
Verification of PRINTCHECK (`src/create_checklist.py`): a shallow embedding of
the preview renderer `create_3d_preview` (lines 116-165) and the checklist
assembler (lines 167-255), with theorems settling the frozen claims about the
program.

Conventions of the embedding:
* Python strings are Lean `String`s; `'pat' in s` is `strContains s pat`;
  `str.lower()` is `strLower` (ASCII case folding suffices for the
  markers `[a]` / `[c]` the program tests for).
* Python numbers driving control flow (`max_retries`, `retries`, image sizes)
  are `Int` / `Nat`; geometric quantities (bounding-box corners, camera
  distance) are `ℚ`, since the claims about them are exact arithmetic.
* The rendering backend is nondeterministic from the program's point of view:
  one execution of the `try` body either completes or raises an exception.
  It is modelled by an oracle `attempt : Nat → AttemptOutcome` giving the
  outcome of the k-th execution of the body; the pure data flow inside a
  completing body (color choice, camera distance, the resolution handed to
  `scene.save_image`) is modelled separately by `attemptBody`.
* `try/except ZeroDivisionError/except Exception` is modelled by tagging each
  raised exception with its class data: `isZeroDivisionError` (caught by the
  first handler) and `isException` (caught by the second); an exception
  carrying neither would propagate out of the function, which the embedding
  records as `RunResult.escaped`.
-/

namespace PrintCheck

/-- Boolean test that the first character list is a prefix of the second. -/
def isPrefixOfB : List Char → List Char → Bool
  | [], _ => true
  | _ :: _, [] => false
  | a :: as, b :: bs => a = b && isPrefixOfB as bs

/-- Boolean test that `pat` occurs as a contiguous sublist of the second list. -/
def containsSubList (pat : List Char) : List Char → Bool
  | [] => isPrefixOfB pat []
  | c :: rest => isPrefixOfB pat (c :: rest) || containsSubList pat rest

/-- Embedding of Python's substring test `pat in s`. -/
def strContains (s pat : String) : Bool := containsSubList pat.data s.data

/-- Embedding of Python's `str.lower()`: lower-case each character (ASCII
case folding is all the program relies on, its markers being `[a]` and
`[c]`). -/
def strLower (s : String) : String := ⟨s.data.map Char.toLower⟩

/-- The three color-coding variants of the spec's data model (`ColorClass`);
named `ColorCode` here. `Flagged` is the mild-red face color, `Neutral` the
white one, `Standard` the dark-gray one. -/
inductive ColorCode where
  | Flagged
  | Neutral
  | Standard
deriving DecidableEq

/-- The RGBA face color the program assigns to each color variant
(lines 124, 126, 128 of `create_checklist.py`). -/
def rgbaOf : ColorCode → List Nat
  | .Flagged => [180, 0, 0, 255]
  | .Neutral => [255, 255, 255, 255]
  | .Standard => [50, 50, 50, 255]

/-- Spec-side classification of a filename, following the spec's words: the
lowercased name containing `[a]` is `Flagged`, else containing `[c]` is
`Neutral`, otherwise `Standard` (the `[a]` check is made first). -/
def colorCodeSpec (name : String) : ColorCode :=
  if strContains (strLower name) "[a]" then .Flagged
  else if strContains (strLower name) "[c]" then .Neutral
  else .Standard

/-- Oriented-bounding-box data of a loaded mesh: `lower` and `upper` are the
two rows of `mesh.bounding_box_oriented.bounds`, `centroid` is
`mesh.centroid`. -/
structure MeshData where
  lower : ℚ × ℚ × ℚ
  upper : ℚ × ℚ × ℚ
  centroid : ℚ × ℚ × ℚ
deriving DecidableEq

/-- The pure data flow of one completing execution of the `try` body of
`create_3d_preview` (lines 119-152): the face color applied, the camera
distance, the corrected local `width`/`height`, and the `resolution`
argument actually handed to `scene.save_image`. -/
structure AttemptTrace where
  face_colors : List Nat
  scale : ℚ
  camera_distance : ℚ
  width : Nat
  height : Nat
  resolution : Nat × Nat
deriving DecidableEq

/-- Embedding of lines 119-152 of `create_checklist.py`, the body of one
render attempt; `name` is `stl_file_path.name`, `mesh` the loaded mesh's
bounding-box data, `image_size` the `(width, height)` argument. Note that
line 152 passes `image_size` itself, not the corrected pair, to
`scene.save_image`. -/
def attemptBody (name : String) (mesh : MeshData) (image_size : Nat × Nat) :
    AttemptTrace :=
  let face_colors :=
    if strContains (strLower name) "[a]" then [180, 0, 0, 255]
    else if strContains (strLower name) "[c]" then [255, 255, 255, 255]
    else [50, 50, 50, 255]
  let e1 := mesh.upper.1 - mesh.lower.1
  let e2 := mesh.upper.2.1 - mesh.lower.2.1
  let e3 := mesh.upper.2.2 - mesh.lower.2.2
  let scale := max (max e1 e2) e3
  let camera_distance := scale * (5 / 2 : ℚ)
  let width := image_size.1
  let height := if image_size.2 = 0 then 1 else image_size.2
  { face_colors := face_colors
    scale := scale
    camera_distance := camera_distance
    width := width
    height := height
    resolution := image_size }

/-- Class data of a Python exception as seen by the two `except` clauses:
whether it is a `ZeroDivisionError` and whether it derives from `Exception`. -/
structure PyExn where
  isZeroDivisionError : Bool
  isException : Bool
deriving DecidableEq

/-- Outcome of one execution of the `try` body: it completes, or it raises an
exception. -/
inductive AttemptOutcome where
  | ok
  | raised (e : PyExn)
deriving DecidableEq

/-- How a call of `create_3d_preview` ends: the function returns the boolean
`b` after `attempts` executions of the `try` body, or an exception uncaught
by both handlers propagates to the caller. -/
inductive RunResult where
  | returned (b : Bool) (attempts : Nat)
  | escaped (e : PyExn) (attempts : Nat)
deriving DecidableEq

/-- Embedding of the `while retries < max_retries` loop of
`create_3d_preview` (lines 116-165). `retries` is the Python counter;
`budget` is the number of remaining iterations, i.e. `max_retries - retries`
(the counter increases by exactly one per iteration that continues, so the
guard `retries < max_retries` fails exactly when `budget = 0`). The k-th
execution of the body runs with `retries = k`, so the oracle is indexed by
the counter. A completing body returns `True`; a `ZeroDivisionError` is
caught by the first handler, which increments the counter and retries; any
other `Exception` is caught by the second handler, which returns `False`;
falling out of the loop returns `False` (line 165). -/
def previewLoop (attempt : Nat → AttemptOutcome) (retries : Nat) :
    Nat → RunResult
  | 0 => .returned false retries
  | budget + 1 =>
    match attempt retries with
    | .ok => .returned true (retries + 1)
    | .raised e =>
      if e.isZeroDivisionError then previewLoop attempt (retries + 1) budget
      else if e.isException then .returned false (retries + 1)
      else .escaped e (retries + 1)

/-- Embedding of `create_3d_preview(stl_file_path, save_path, image_size,
max_retries)`: the loop starts with `retries = 0`, hence has
`max(max_retries, 0)` iterations available. -/
def create_3d_preview (attempt : Nat → AttemptOutcome) (max_retries : Int) :
    RunResult :=
  previewLoop attempt 0 max_retries.toNat

/-- Number of executions of the `try` body during a run. -/
def attemptsOf : RunResult → Nat
  | .returned _ n => n
  | .escaped _ n => n

/-- Whether the run ended with the function returning (rather than an
exception propagating to the caller). -/
def isReturnedB : RunResult → Bool
  | .returned _ _ => true
  | .escaped _ _ => false

/-- An attempt outcome is transient when it raises a `ZeroDivisionError`
(the spec's `TransientRenderError`). -/
def isTransientO : AttemptOutcome → Bool
  | .raised e => e.isZeroDivisionError
  | .ok => false

/-- An attempt outcome is fatal when it raises an `Exception` that is not a
`ZeroDivisionError` (the spec's `FatalRenderError`). -/
def isFatalO : AttemptOutcome → Bool
  | .raised e => !e.isZeroDivisionError && e.isException
  | .ok => false

/-- A discovered STL file, identified by its path relative to the configured
root directory `stls_dir`: `folderParts` are the components of its containing
directory relative to the root (empty for a file directly in the root) and
`name` is the final path component. -/
structure SFile where
  folderParts : List String
  name : String
deriving DecidableEq

/-- The file's path relative to the root, as a string. Sorting the absolute
paths (`sorted(stl_files)`, line 192) orders them by this string, since all
share the root prefix. -/
def pathStr (f : SFile) : String :=
  String.intercalate "/" (f.folderParts ++ [f.name])

/-- Embedding of `str(stl_path.parent.relative_to(stls_dir))` (line 194ff):
`Path.relative_to` of the root itself is `Path('.')`, whose string form is
`"."`, so a file directly in the root gets folder string `"."`. -/
def folderStr (f : SFile) : String :=
  if f.folderParts = [] then "." else String.intercalate "/" f.folderParts

/-- Embedding of `f"{folder}/{stl_path.name}"` (line 232), the entry appended
to `missing_previews` for a file whose preview failed. -/
def missingInfo (f : SFile) : String :=
  folderStr f ++ "/" ++ f.name

/-- Lexicographic comparison of character lists by code point, the order
Python uses on strings. -/
def charListLe : List Char → List Char → Bool
  | [], _ => true
  | _ :: _, [] => false
  | a :: as, b :: bs => if a = b then charListLe as bs else decide (a < b)

/-- Path comparison used by `sorted(stl_files)`. -/
def pathLe (a b : SFile) : Bool :=
  charListLe (pathStr a).data (pathStr b).data

/-- Embedding of `sorted(stl_files)` (line 192). -/
def sortFiles (files : List SFile) : List SFile :=
  List.insertionSort (fun a b => pathLe a b = true) files

/-- One row of the worksheet as appended by the main program, before the
banner-insertion step: the column-header row (line 176), a blank spacer row
(line 199), a folder header (line 203), a per-file row with an embedded image
(lines 214-220), or a per-file row whose preview is missing (lines 236-242). -/
inductive XRow where
  | headerRow
  | blank
  | folderHeader (folder : String)
  | fileRowOk (name : String)
  | fileRowMissing (name : String)
deriving DecidableEq

/-- The cell contents of a row, as the program appends them
(`ws.append(...)`). -/
def rowCells : XRow → List String
  | .headerRow => ["Filename", "Preview", "Checked and Available", "Not Needed"]
  | .blank => [""]
  | .folderHeader folder => ["Folder: " ++ folder]
  | .fileRowOk name => [name, "", "", ""]
  | .fileRowMissing name => [name, "Preview Missing", "", ""]

/-- Output of the per-file processing loop: the rows appended to the sheet,
in order, and the `missing_previews` list, in order. -/
structure AsmOut where
  doc : List XRow
  missing : List String
deriving DecidableEq

/-- Embedding of the loop over `sorted(stl_files)` (lines 192-245), carrying
the `current_folder` state (`none` is Python's initial `None`). `outcome f`
is the boolean `create_3d_preview` returned for file `f` (the rendering
backend decides it; the loop only branches on it). When the file's folder
differs from `current_folder`, a blank spacer and a folder header are
appended and the state is updated; then one per-file row is appended, and on
a failed preview `missingInfo f` is appended to the missing list. -/
def processFiles (outcome : SFile → Bool) :
    List SFile → Option String → AsmOut
  | [], _ => { doc := [], missing := [] }
  | f :: rest, current_folder =>
    let folder := folderStr f
    let headerRows : List XRow :=
      if some folder ≠ current_folder then [.blank, .folderHeader folder]
      else []
    let fileRows : List XRow :=
      if outcome f then [.fileRowOk f.name] else [.fileRowMissing f.name]
    let miss : List String := if outcome f then [] else [missingInfo f]
    let tail := processFiles outcome rest (some folder)
    { doc := headerRows ++ fileRows ++ tail.doc
      missing := miss ++ tail.missing }

/-- Embedding of the assembly phase before banner insertion: the
column-header row is appended first (line 176), then the loop runs over the
sorted files with `current_folder = None` (line 189). -/
def assembleOut (files : List SFile) (outcome : SFile → Bool) : AsmOut :=
  let r := processFiles outcome (sortFiles files) none
  { doc := .headerRow :: r.doc, missing := r.missing }

/-- The folder headers of a document, in order. -/
def headersOf (doc : List XRow) : List String :=
  doc.filterMap fun r =>
    match r with
    | .folderHeader folder => some folder
    | _ => none

/-- Whether a row is a per-file `ChecklistRow` (either kind). -/
def isFileRowB : XRow → Bool
  | .fileRowOk _ => true
  | .fileRowMissing _ => true
  | _ => false

/-- Number of per-file rows in a document. -/
def countFileRows (doc : List XRow) : Nat :=
  doc.countP isFileRowB

/-- The sequence of folder values at folder transitions: the first folder,
then every folder differing from its predecessor. This is the spec-side
description of which folder headers the loop emits. -/
def transitionsFrom (current : String) : List String → List String
  | [] => []
  | folder :: rest =>
    if folder = current then transitionsFrom current rest
    else folder :: transitionsFrom folder rest

/-- Folder transitions of a folder sequence, starting with no current
folder. -/
def transitions : List String → List String
  | [] => []
  | folder :: rest => folder :: transitionsFrom folder rest

/-- Overwrite the first cell of a row (`ws[f"A{i}"] = v` on an existing row
touches only column A; an absent cell is created). -/
def setFirstCell (row : List String) (v : String) : List String :=
  match row with
  | [] => [v]
  | _ :: rest => v :: rest

/-- Set column A of the 0-based `i`-th row of the sheet, creating empty rows
if the sheet is shorter (openpyxl's sheet is a sparse grid, so assigning
`ws[f"A{i}"]` always succeeds). -/
def setColA : List (List String) → Nat → String → List (List String)
  | [], 0, v => [[v]]
  | [], n + 1, v => [] :: setColA [] n v
  | row :: rows, 0, v => setFirstCell row v :: rows
  | row :: rows, n + 1, v => row :: setColA rows n v

/-- Embedding of the loop `for idx, missing_file in
enumerate(missing_previews, start=2): ws[f"A{idx}"] = missing_file`
(lines 253-254); `i` is the 0-based row index, so it starts at 1. -/
def writeMissingRows : List (List String) → Nat → List String → List (List String)
  | ws, _, [] => ws
  | ws, i, m :: rest => writeMissingRows (setColA ws i m) (i + 1) rest

/-- Embedding of the banner-insertion step (lines 247-255): if
`missing_previews` is non-empty, two blank rows are inserted at the top
(`ws.insert_rows(1)` twice), the warning line is written to `A1`, and the
missing entries are written to `A2`, `A3`, ... — note that only two rows
were inserted, however many entries there are. -/
def insertMissingBanner (missing : List String) (ws : List (List String)) :
    List (List String) :=
  if missing.isEmpty then ws
  else
    let ws := [] :: ws
    let ws := [] :: ws
    let ws := setColA ws 0
      "Warning: The following STL files failed to generate a preview:"
    writeMissingRows ws 1 missing

/-- The final cell grid of the worksheet: the assembled rows' cells, with the
banner-insertion step applied. -/
def finalSheet (files : List SFile) (outcome : SFile → Bool) :
    List (List String) :=
  let r := assembleOut files outcome
  insertMissingBanner r.missing (r.doc.map rowCells)

/-! ### Lemmas about the retry loop -/

/-- If every attempt in the remaining budget is transient, the loop consumes
the whole budget and returns `False` with the counter advanced by the
budget. -/
theorem previewLoop_all_transient (attempt : Nat → AttemptOutcome) :
    ∀ budget retries,
      (∀ k, retries ≤ k → k < retries + budget →
        isTransientO (attempt k) = true) →
      previewLoop attempt retries budget = .returned false (retries + budget) := by
  intro budget
  induction budget with
  | zero => intro retries _; rfl
  | succ b ih =>
    intro retries h
    have ht : isTransientO (attempt retries) = true := h retries le_rfl (by omega)
    cases ha : attempt retries with
    | ok => rw [ha] at ht; simp [isTransientO] at ht
    | raised e =>
      rw [ha] at ht
      simp only [isTransientO] at ht
      simp only [previewLoop, ha, ht, if_true]
      rw [ih (retries + 1) (fun k hk1 hk2 => h k (by omega) (by omega))]
      congr 1
      omega

/-- If the first `j` attempts are transient and the `j`-th-after attempt is
fatal, with `j` inside the budget, the loop returns `False` right after the
fatal attempt: no retry follows a fatal error. -/
theorem previewLoop_transient_then_fatal (attempt : Nat → AttemptOutcome) :
    ∀ j budget retries, j < budget →
      (∀ k, retries ≤ k → k < retries + j → isTransientO (attempt k) = true) →
      isFatalO (attempt (retries + j)) = true →
      previewLoop attempt retries budget = .returned false (retries + j + 1) := by
  intro j
  induction j with
  | zero =>
    intro budget retries hlt _ hf
    obtain ⟨b, rfl⟩ : ∃ b, budget = b + 1 := ⟨budget - 1, by omega⟩
    rw [Nat.add_zero] at hf
    cases ha : attempt retries with
    | ok => rw [ha] at hf; simp [isFatalO] at hf
    | raised e =>
      rw [ha] at hf
      simp only [isFatalO, Bool.and_eq_true, Bool.not_eq_true'] at hf
      simp [previewLoop, ha, hf.1, hf.2]
  | succ j ih =>
    intro budget retries hlt h hf
    obtain ⟨b, rfl⟩ : ∃ b, budget = b + 1 := ⟨budget - 1, by omega⟩
    have ht : isTransientO (attempt retries) = true := h retries le_rfl (by omega)
    cases ha : attempt retries with
    | ok => rw [ha] at ht; simp [isTransientO] at ht
    | raised e =>
      rw [ha] at ht
      simp only [isTransientO] at ht
      simp only [previewLoop, ha, ht, if_true]
      have := ih b (retries + 1) (by omega)
        (fun k hk1 hk2 => h k (by omega) (by omega))
        (by rw [show retries + 1 + j = retries + (j + 1) by omega]; exact hf)
      rw [this]
      congr 1
      omega

/-- The loop executes the body at most `budget` more times. -/
theorem attemptsOf_previewLoop (attempt : Nat → AttemptOutcome) :
    ∀ budget retries,
      attemptsOf (previewLoop attempt retries budget) ≤ retries + budget := by
  intro budget
  induction budget with
  | zero => intro retries; simp [previewLoop, attemptsOf]
  | succ b ih =>
    intro retries
    cases ha : attempt retries with
    | ok => simp only [previewLoop, ha, attemptsOf]; omega
    | raised e =>
      by_cases h1 : e.isZeroDivisionError = true
      · simp only [previewLoop, ha, h1, if_true]
        have := ih (retries + 1)
        omega
      · simp only [previewLoop, ha]
        rw [if_neg h1]
        by_cases h2 : e.isException = true
        · rw [if_pos h2]; simp only [attemptsOf]; omega
        · rw [if_neg h2]; simp only [attemptsOf]; omega

/-- If every raised exception derives from `Exception`, the loop always ends
by returning a boolean: no exception escapes the two handlers. -/
theorem previewLoop_isReturned (attempt : Nat → AttemptOutcome)
    (h : ∀ k e, attempt k = .raised e → e.isException = true) :
    ∀ budget retries, isReturnedB (previewLoop attempt retries budget) = true := by
  intro budget
  induction budget with
  | zero => intro retries; rfl
  | succ b ih =>
    intro retries
    simp only [previewLoop]
    cases ha : attempt retries with
    | ok => rfl
    | raised e =>
      by_cases h1 : e.isZeroDivisionError = true
      · simp only [h1, if_true]
        exact ih (retries + 1)
      · have hE : e.isException = true := h retries e ha
        simp [h1, hE, isReturnedB]

/-! ### Lemmas about the assembly loop -/

theorem headersOf_append (a b : List XRow) :
    headersOf (a ++ b) = headersOf a ++ headersOf b :=
  List.filterMap_append a b _

theorem headersOf_blank_cons (l : List XRow) :
    headersOf (.blank :: l) = headersOf l := rfl

theorem headersOf_folderHeader_cons (s : String) (l : List XRow) :
    headersOf (.folderHeader s :: l) = s :: headersOf l := rfl

theorem headersOf_fileRowOk_cons (s : String) (l : List XRow) :
    headersOf (.fileRowOk s :: l) = headersOf l := rfl

theorem headersOf_fileRowMissing_cons (s : String) (l : List XRow) :
    headersOf (.fileRowMissing s :: l) = headersOf l := rfl

theorem headersOf_headerRow_cons (l : List XRow) :
    headersOf (.headerRow :: l) = headersOf l := rfl

/-- Whichever kind of per-file row the loop appends, it contributes no
folder header. -/
theorem headersOf_fileRows_append (c : Prop) [Decidable c] (n : String)
    (l : List XRow) :
    headersOf ((if c then [XRow.fileRowOk n] else [XRow.fileRowMissing n]) ++ l) =
      headersOf l := by
  split <;> rfl

/-- Folder headers produced by the loop from a state that already has a
current folder: exactly the folder transitions of the remaining folder
sequence. -/
theorem processFiles_headers (outcome : SFile → Bool) :
    ∀ (l : List SFile) (cur : String),
      headersOf (processFiles outcome l (some cur)).doc =
        transitionsFrom cur (l.map folderStr) := by
  intro l
  induction l with
  | nil => intro cur; rfl
  | cons f rest ih =>
    intro cur
    simp only [processFiles, List.map_cons, transitionsFrom]
    by_cases h : folderStr f = cur
    · rw [if_pos h]
      have hcond : ¬(some (folderStr f) ≠ some cur) := by simp [h]
      rw [if_neg hcond, List.nil_append, headersOf_fileRows_append,
        ih (folderStr f), h]
    · rw [if_neg h]
      have hcond : some (folderStr f) ≠ some cur := by simp [h]
      rw [if_pos hcond]
      simp only [List.cons_append, List.nil_append, headersOf_blank_cons,
        headersOf_folderHeader_cons]
      rw [headersOf_fileRows_append, ih (folderStr f)]

/-- Folder headers produced by the loop from the initial state: the folder
transitions of the whole folder sequence, the first file always triggering a
header. -/
theorem processFiles_headers_none (outcome : SFile → Bool) (l : List SFile) :
    headersOf (processFiles outcome l none).doc = transitions (l.map folderStr) := by
  cases l with
  | nil => rfl
  | cons f rest =>
    simp only [processFiles, List.map_cons, transitions]
    have hcond : some (folderStr f) ≠ none := by simp
    rw [if_pos hcond]
    simp only [List.cons_append, List.nil_append, headersOf_blank_cons,
      headersOf_folderHeader_cons]
    rw [headersOf_fileRows_append, processFiles_headers outcome rest (folderStr f)]

/-- Consecutive entries of a transition list always differ. -/
theorem chain_ne_transitionsFrom :
    ∀ (l : List String) (cur : String),
      List.Chain (fun a b => a ≠ b) cur (transitionsFrom cur l) := by
  intro l
  induction l with
  | nil => intro cur; exact .nil
  | cons folder rest ih =>
    intro cur
    simp only [transitionsFrom]
    by_cases h : folder = cur
    · rw [if_pos h]; exact ih cur
    · rw [if_neg h]
      exact .cons (fun hc => h hc.symm) (ih folder)

/-- A transition list has no two equal consecutive entries. -/
theorem chain_ne_transitions (l : List String) :
    List.Chain' (fun a b => a ≠ b) (transitions l) := by
  cases l with
  | nil => simp [transitions]
  | cons folder rest =>
    simp only [transitions]
    exact chain_ne_transitionsFrom rest folder

/-- The loop emits exactly one per-file row for each file. -/
theorem processFiles_countFileRows (outcome : SFile → Bool) :
    ∀ (l : List SFile) (cur : Option String),
      countFileRows (processFiles outcome l cur).doc = l.length := by
  intro l
  induction l with
  | nil => intro cur; rfl
  | cons f rest ih =>
    intro cur
    simp only [processFiles, countFileRows, List.countP_append, List.length_cons]
    have hrest := ih (some (folderStr f))
    simp only [countFileRows] at hrest
    by_cases hc : some (folderStr f) ≠ cur <;>
      by_cases ho : outcome f <;>
        simp [hc, ho, List.countP_cons, isFileRowB, hrest] <;> omega

/-- The loop appends exactly one missing record for each file whose preview
failed. -/
theorem processFiles_missing_length (outcome : SFile → Bool) :
    ∀ (l : List SFile) (cur : Option String),
      (processFiles outcome l cur).missing.length =
        l.countP (fun f => !outcome f) := by
  intro l
  induction l with
  | nil => intro cur; rfl
  | cons f rest ih =>
    intro cur
    simp only [processFiles, List.countP_cons]
    by_cases ho : outcome f <;>
      simp [ho, ih (some (folderStr f))]

/-! ### Claims -/

/-- C1 (demonstration of the code bug): with two files in folder `A` whose
previews both fail, the banner-insertion step inserts only two rows before
writing the warning plus two missing entries into column A, so the second
missing entry overwrites column A of the original column-header row: the
final sheet's third row reads `A/f2.stl, Preview, ...` and the header row
`Filename, Preview, ...` occurs nowhere — contradicting the claim that all
rows produced earlier (including the column header row) appear intact after
the leading rows. -/
theorem claim_C1_bug_eval :
    finalSheet [⟨["A"], "f1.stl"⟩, ⟨["A"], "f2.stl"⟩] (fun _ => false) =
      [["Warning: The following STL files failed to generate a preview:"],
       ["A/f1.stl"],
       ["A/f2.stl", "Preview", "Checked and Available", "Not Needed"],
       [""],
       ["Folder: A"],
       ["f1.stl", "Preview Missing", "", ""],
       ["f2.stl", "Preview Missing", "", ""]] ∧
    (assembleOut [⟨["A"], "f1.stl"⟩, ⟨["A"], "f2.stl"⟩] (fun _ => false)).missing =
      ["A/f1.stl", "A/f2.stl"] ∧
    (finalSheet [⟨["A"], "f1.stl"⟩, ⟨["A"], "f2.stl"⟩] (fun _ => false)).count
      ["Filename", "Preview", "Checked and Available", "Not Needed"] = 0 := by
  refine ⟨by decide, by decide, by decide⟩

/-- C2: with a positive retry bound, (a) if every attempt inside the budget
raises a transient error (`ZeroDivisionError`), the renderer makes exactly
`max_retries` attempts and then returns `False`; (b) if after `j` transient
attempts the next attempt raises a fatal error, the run returns `False`
immediately after that attempt — zero retries follow a fatal error (in
particular `j = 0`: a first-attempt fatal error returns `False` after one
attempt). -/
theorem claim_C2_retry_policy (attempt : Nat → AttemptOutcome)
    (max_retries : Int) (_hpos : 0 < max_retries) :
    ((∀ k, k < max_retries.toNat → isTransientO (attempt k) = true) →
      create_3d_preview attempt max_retries = .returned false max_retries.toNat) ∧
    (∀ j, j < max_retries.toNat →
      (∀ k, k < j → isTransientO (attempt k) = true) →
      isFatalO (attempt j) = true →
      create_3d_preview attempt max_retries = .returned false (j + 1)) := by
  constructor
  · intro h
    unfold create_3d_preview
    have := previewLoop_all_transient attempt max_retries.toNat 0
      (fun k hk1 hk2 => h k (by omega))
    simpa using this
  · intro j hj ht hf
    unfold create_3d_preview
    have := previewLoop_transient_then_fatal attempt j max_retries.toNat 0 hj
      (fun k hk1 hk2 => ht k (by omega)) (by simpa using hf)
    simpa using this

/-- Witness for C2: with budget 2, an always-transient backend yields
`False` after 2 attempts; a first-attempt fatal error yields `False` after
1 attempt. -/
theorem claim_C2_retry_policy_witness :
    create_3d_preview (fun _ => .raised ⟨true, true⟩) 2 = .returned false 2 ∧
    create_3d_preview (fun _ => .raised ⟨false, true⟩) 2 = .returned false 1 :=
  ⟨(claim_C2_retry_policy (fun _ => .raised ⟨true, true⟩) 2 (by decide)).1
      (fun k _ => rfl),
   (claim_C2_retry_policy (fun _ => .raised ⟨false, true⟩) 2 (by decide)).2 0
      (by decide) (fun k hk => absurd hk (Nat.not_lt_zero k)) rfl⟩

/-- C3 (counterexample): with files `A/z.stl`, `A/c/q.stl`, `A/b.stl` (all
renderable), the sorted order is `A/b.stl, A/c/q.stl, A/z.stl`, whose folder
sequence is `A, A/c, A`: the document carries a folder header for `A`
twice, refuting that each distinct relative folder value causes exactly one
folder header. -/
theorem claim_C3_counterexample :
    headersOf (assembleOut
        [⟨["A"], "z.stl"⟩, ⟨["A", "c"], "q.stl"⟩, ⟨["A"], "b.stl"⟩]
        (fun _ => true)).doc = ["A", "A/c", "A"] ∧
    (headersOf (assembleOut
        [⟨["A"], "z.stl"⟩, ⟨["A", "c"], "q.stl"⟩, ⟨["A"], "b.stl"⟩]
        (fun _ => true)).doc).count "A" = 2 := by
  refine ⟨by decide, by decide⟩

/-- C3 (amended): the document carries exactly one folder header per folder
transition of the sorted file sequence, in transition order — equivalently,
the header sequence is the consecutive-deduplication of the sorted files'
folder sequence — and consecutive headers always differ (a header may still
repeat for a folder whose files are non-contiguous in sorted order). -/
theorem claim_C3_headers_are_transitions (files : List SFile)
    (outcome : SFile → Bool) :
    headersOf (assembleOut files outcome).doc =
      transitions ((sortFiles files).map folderStr) ∧
    List.Chain' (fun a b => a ≠ b) (headersOf (assembleOut files outcome).doc) := by
  have key : headersOf (assembleOut files outcome).doc =
      transitions ((sortFiles files).map folderStr) := by
    unfold assembleOut
    rw [headersOf_headerRow_cons]
    exact processFiles_headers_none outcome (sortFiles files)
  exact ⟨key, key ▸ chain_ne_transitions _⟩

/-- C4: the face color the render body applies is exactly the fixed RGBA
color of the file's color class; a lowercased name containing `[a]` is
`Flagged`, one containing `[c]` but not `[a]` is `Neutral`, one containing
neither is `Standard`, and one containing both markers is `Flagged` (the
`[a]` check wins); the classification is a total function of the name, so
exactly one variant applies and the mapping is deterministic. -/
theorem claim_C4_color_rule (name : String) (mesh : MeshData)
    (image_size : Nat × Nat) :
    (attemptBody name mesh image_size).face_colors = rgbaOf (colorCodeSpec name) ∧
    (strContains (strLower name) "[a]" = true → colorCodeSpec name = .Flagged) ∧
    (strContains (strLower name) "[a]" = false →
      strContains (strLower name) "[c]" = true → colorCodeSpec name = .Neutral) ∧
    (strContains (strLower name) "[a]" = false →
      strContains (strLower name) "[c]" = false → colorCodeSpec name = .Standard) ∧
    (strContains (strLower name) "[a]" = true →
      strContains (strLower name) "[c]" = true → colorCodeSpec name = .Flagged) := by
  by_cases ha : strContains (strLower name) "[a]" = true <;>
    by_cases hc : strContains (strLower name) "[c]" = true <;>
      simp [attemptBody, colorCodeSpec, rgbaOf, ha, hc]

/-- Witness for C4: a name with both markers is `Flagged`, a name with only
`[C]` (case-insensitive) is `Neutral`, a plain name is `Standard`. -/
theorem claim_C4_color_rule_witness :
    colorCodeSpec "p[a][c].stl" = .Flagged ∧
    colorCodeSpec "x[C].stl" = .Neutral ∧
    colorCodeSpec "x.stl" = .Standard :=
  ⟨(claim_C4_color_rule "p[a][c].stl" ⟨(0, 0, 0), (1, 1, 1), (0, 0, 0)⟩
      (200, 200)).2.2.2.2 (by decide) (by decide),
   (claim_C4_color_rule "x[C].stl" ⟨(0, 0, 0), (1, 1, 1), (0, 0, 0)⟩
      (200, 200)).2.2.1 (by decide) (by decide),
   (claim_C4_color_rule "x.stl" ⟨(0, 0, 0), (1, 1, 1), (0, 0, 0)⟩
      (200, 200)).2.2.2.1 (by decide) (by decide)⟩

/-- C5: whatever the backend does and whatever the retry bound, if every
exception the render attempts raise derives from `Exception` (as every
rendering error does), `create_3d_preview` returns a boolean: no rendering
error escapes to the caller as a raised exception. -/
theorem claim_C5_no_escape (attempt : Nat → AttemptOutcome) (max_retries : Int)
    (h : ∀ k e, attempt k = .raised e → e.isException = true) :
    isReturnedB (create_3d_preview attempt max_retries) = true :=
  previewLoop_isReturned attempt h max_retries.toNat 0

/-- Witness for C5: a backend that always raises a fatal rendering error
still makes the function return (with `False`). -/
theorem claim_C5_no_escape_witness :
    isReturnedB (create_3d_preview (fun _ => .raised ⟨false, true⟩) 10) = true :=
  claim_C5_no_escape (fun _ => .raised ⟨false, true⟩) 10
    (fun k e h => by injection h with h1; rw [← h1])

/-- C6: for every input file collection and every pattern of per-file render
outcomes, the assembled document has exactly one per-file row per input file
and the missing list has exactly one record per file whose outcome is a
failure; in particular no per-file failure aborts the run. -/
theorem claim_C6_row_counts (files : List SFile) (outcome : SFile → Bool) :
    countFileRows (assembleOut files outcome).doc = files.length ∧
    (assembleOut files outcome).missing.length =
      files.countP (fun f => !outcome f) := by
  have hperm := List.perm_insertionSort (fun a b => pathLe a b = true) files
  constructor
  · unfold assembleOut
    have hhead : countFileRows
        (XRow.headerRow :: (processFiles outcome (sortFiles files) none).doc) =
        countFileRows (processFiles outcome (sortFiles files) none).doc := by
      simp [countFileRows, List.countP_cons, isFileRowB]
    rw [hhead, processFiles_countFileRows]
    exact hperm.length_eq
  · unfold assembleOut
    rw [processFiles_missing_length]
    exact hperm.countP_eq _

/-- C7 (demonstration of the code bug): called with `image_size = (200, 0)`,
the body computes the corrected local `height = 1`, but the `resolution`
argument handed to `scene.save_image` is the unmodified `image_size`
`(200, 0)` — the degenerate size, not the corrected `(200, 1)` the claim
says the rendering step operates on. -/
theorem claim_C7_bug_eval :
    (attemptBody "part.stl" ⟨(0, 0, 0), (1, 1, 1), (0, 0, 0)⟩ (200, 0)).height = 1 ∧
    (attemptBody "part.stl" ⟨(0, 0, 0), (1, 1, 1), (0, 0, 0)⟩ (200, 0)).resolution =
      (200, 0) ∧
    (200, 0) ≠ (200, 1) := by
  refine ⟨rfl, rfl, by decide⟩

/-- C8: the camera distance the render body computes is exactly `2.5` times
the largest oriented-bounding-box axis extent, for every mesh, name and
image size; meshes of extent 1, 2 and 10 give distances `2.5`, `5` and
`25`. -/
theorem claim_C8_camera_distance (name : String) (mesh : MeshData)
    (image_size : Nat × Nat) :
    (attemptBody name mesh image_size).camera_distance =
      (5 / 2 : ℚ) * max (max (mesh.upper.1 - mesh.lower.1)
        (mesh.upper.2.1 - mesh.lower.2.1)) (mesh.upper.2.2 - mesh.lower.2.2) ∧
    (attemptBody name mesh image_size).camera_distance =
      (attemptBody name mesh image_size).scale * (5 / 2 : ℚ) ∧
    (attemptBody name ⟨(0, 0, 0), (1, 1, 1), (0, 0, 0)⟩ image_size).camera_distance
      = 5 / 2 ∧
    (attemptBody name ⟨(0, 0, 0), (2, 2, 2), (0, 0, 0)⟩ image_size).camera_distance
      = 5 ∧
    (attemptBody name ⟨(0, 0, 0), (10, 10, 10), (0, 0, 0)⟩ image_size).camera_distance
      = 25 := by
  refine ⟨?_, rfl, ?_, ?_, ?_⟩
  · simp only [attemptBody]
    ring
  · norm_num [attemptBody]
  · norm_num [attemptBody]
  · norm_num [attemptBody]

/-- C9 (counterexample): for the file `x.stl` directly in the root, the
derived folder string is `"."` — `Path.relative_to` of the root itself is
`Path('.')` — not the empty string, and the missing record reads
`./x.stl`, not `/x.stl` with an empty folder component. -/
theorem claim_C9_counterexample :
    folderStr ⟨[], "x.stl"⟩ = "." ∧
    folderStr ⟨[], "x.stl"⟩ ≠ "" ∧
    missingInfo ⟨[], "x.stl"⟩ = "./x.stl" := by
  refine ⟨rfl, by decide, rfl⟩

/-- C9 (amended): for every file directly in the root, the derived folder
value is the current-directory marker `"."` (not empty), so its folder
header carries `"."` and, when its preview fails, its missing record reads
`./filename`. -/
theorem claim_C9_root_folder (f : SFile) (h : f.folderParts = [])
    (outcome : SFile → Bool) (ho : outcome f = false) :
    folderStr f = "." ∧
    missingInfo f = "." ++ "/" ++ f.name ∧
    headersOf (assembleOut [f] outcome).doc = ["."] ∧
    (assembleOut [f] outcome).missing = ["." ++ "/" ++ f.name] := by
  have hfold : folderStr f = "." := by unfold folderStr; rw [if_pos h]
  have hmiss : missingInfo f = "." ++ "/" ++ f.name := by
    unfold missingInfo; rw [hfold]
  have hsort : sortFiles [f] = [f] := rfl
  refine ⟨hfold, hmiss, ?_, ?_⟩
  · unfold assembleOut
    rw [headersOf_headerRow_cons, hsort, processFiles_headers_none]
    simp [transitions, transitionsFrom, hfold]
  · unfold assembleOut
    rw [hsort]
    simp [processFiles, ho, hmiss]

/-- Witness for C9 (amended): the concrete root file `x.stl` with a failing
preview. -/
theorem claim_C9_root_folder_witness :
    folderStr ⟨[], "x.stl"⟩ = "." ∧
    missingInfo ⟨[], "x.stl"⟩ = "." ++ "/" ++ "x.stl" ∧
    headersOf (assembleOut [⟨[], "x.stl"⟩] (fun _ => false)).doc = ["."] ∧
    (assembleOut [⟨[], "x.stl"⟩] (fun _ => false)).missing =
      ["." ++ "/" ++ "x.stl"] :=
  claim_C9_root_folder ⟨[], "x.stl"⟩ rfl (fun _ => false) rfl

/-- C10: `create_3d_preview` always terminates, executing the try-body at
most `max(max_retries, 0)` times; and when `max_retries ≤ 0` the guard
fails at once, so it returns `False` with zero attempts — the mesh is never
loaded and no render is tried. -/
theorem claim_C10_termination (attempt : Nat → AttemptOutcome)
    (max_retries : Int) :
    attemptsOf (create_3d_preview attempt max_retries) ≤ max_retries.toNat ∧
    (max_retries ≤ 0 →
      create_3d_preview attempt max_retries = .returned false 0) := by
  constructor
  · have := attemptsOf_previewLoop attempt max_retries.toNat 0
    simpa using this
  · intro h
    unfold create_3d_preview
    have hz : max_retries.toNat = 0 := by omega
    rw [hz]
    rfl

/-- Witness for C10: a non-positive retry bound returns `False` with zero
attempts. -/
theorem claim_C10_termination_witness :
    attemptsOf (create_3d_preview (fun _ => .ok) (-3)) ≤ (-3 : Int).toNat ∧
    create_3d_preview (fun _ => .ok) (-3) = .returned false 0 :=
  ⟨(claim_C10_termination (fun _ => .ok) (-3)).1,
   (claim_C10_termination (fun _ => .ok) (-3)).2 (by decide)⟩

end PrintCheck
